import Mathlib

/-!
Shallow embedding of the heat-transfer simulation core from
src/5.About_texture_memory/heat_transfer_simulation_with_texture_memory.cu.

Temperatures are modelled as exact rationals (idealizing IEEE float
arithmetic); a grid buffer is a total map from linear cell indices to
temperatures; each CUDA kernel launch becomes a function over all cell
indices, one logical worker per cell, and the per-worker body is kept
separate so that per-worker locality can be stated.  Index arithmetic in
the stencil kernel is carried out over `Int`, exactly as the `int`
computations of the source, and texture fetches convert the index back to
`Nat` (validity of that conversion is established by the range theorems).
-/

namespace HeatSim

/-- A grid buffer: row-major linearized square array of temperatures,
`index = x + y * DIM`. -/
abbrev Grid : Type := Nat → ℚ

/-- Grid side length, `#define DIM 1024`. -/
def DIM : Nat := 1024

/-- Constant `#define MAX_TEMPERATURE 1.0f`. -/
def MAX_TEMPERATURE : ℚ := 1

/-- Constant `#define MIN_TEMPERATURE 0.0001f`. -/
def MIN_TEMPERATURE : ℚ := 1 / 10000

/-- Constant `#define SPEED 0.2f`. -/
def SPEED : ℚ := 1 / 5

/-- Constant `#define TIME_STEPS_PER_FRAME 50`. -/
def TIME_STEPS_PER_FRAME : Nat := 50

/-- Write one cell of a grid buffer (`g[i] = v`), leaving every other
cell unchanged. -/
def setCell (g : Grid) (i : Nat) (v : ℚ) : Grid :=
  fun j => if j = i then v else g j

/-- A texture fetch `tex1Dfetch(tex, i)` where the texture is bound to the
buffer `g` and the index `i` was computed with `int` arithmetic.  The
kernels only ever fetch at indices inside `[0, DIM*DIM)` (see the range
theorem for claim C9), where `Int.toNat` is the exact inverse of the
embedding of `Nat` into `Int`. -/
def tex1Dfetch (g : Grid) (i : Int) : ℚ :=
  g i.toNat

/-! ### The `maintain_heaters` kernel (source lines 188-197) -/

/-- Body of the `maintain_heaters` kernel for the single worker whose
linear cell index is `cidx`: fetch the heater value; if it is nonzero,
overwrite the target cell `ptr[cidx]` with it, else write nothing. -/
def maintain_heaters_worker (heaters : Grid) (cidx : Nat) (ptr : Grid) : Grid :=
  let heat_source := heaters cidx
  if heat_source ≠ 0 then setCell ptr cidx heat_source else ptr

/-- One launch of `maintain_heaters` over the whole `dim × dim` grid:
every cell index gets one worker.  Workers write pairwise distinct cells,
so the sequential fold is the denotation of the parallel launch. -/
def maintain_heaters (dim : Nat) (heaters ptr : Grid) : Grid :=
  (List.range (dim * dim)).foldl
    (fun b i => maintain_heaters_worker heaters i b) ptr

/-! ### The `temperature_update` kernel (source lines 200-237) -/

/-- Source line `int current_idx = x + y * blockDim.x * gridDim.x` (the grid covers
`dim × dim` cells, so `blockDim.x * gridDim.x = dim`). -/
def current_idx (dim x y : Nat) : Int :=
  (x : Int) + (y : Int) * (dim : Int)

/-- Source lines `int left_idx = current_idx - 1; if (x == 0) ++left_idx;` -/
def left_idx (dim x y : Nat) : Int :=
  let l : Int := current_idx dim x y - 1
  if x = 0 then l + 1 else l

/-- Source lines `int right_idx = current_idx + 1; if (x == DIM - 1) --right_idx;` -/
def right_idx (dim x y : Nat) : Int :=
  let r : Int := current_idx dim x y + 1
  if x = dim - 1 then r - 1 else r

/-- Source lines `int upper_idx = current_idx - DIM; if (y == 0) upper_idx += DIM;` -/
def upper_idx (dim x y : Nat) : Int :=
  let u : Int := current_idx dim x y - (dim : Int)
  if y = 0 then u + (dim : Int) else u

/-- Source lines `int lower_idx = current_idx + DIM; if (y == DIM - 1) lower_idx -= DIM;` -/
def lower_idx (dim x y : Nat) : Int :=
  let l : Int := current_idx dim x y + (dim : Int)
  if y = dim - 1 then l - (dim : Int) else l

/-- One launch of `temperature_update`.  The kernel reads the five stencil
values through the texture bound to the input buffer and writes
`current + SPEED * gradient` through `ptr`, the output buffer; the input
buffer is only read (textures are read-only), so it is returned unchanged
as the first component.  Cells outside the launch grid keep the output
buffer's previous contents. -/
def temperature_update (dim : Nat) (input outBuf : Grid) : Grid × Grid :=
  (input,
    fun idx =>
      if idx < dim * dim then
        let x := idx % dim
        let y := idx / dim
        let current := tex1Dfetch input (current_idx dim x y)
        let left := tex1Dfetch input (left_idx dim x y)
        let right := tex1Dfetch input (right_idx dim x y)
        let upper := tex1Dfetch input (upper_idx dim x y)
        let lower := tex1Dfetch input (lower_idx dim x y)
        let gradient := left + right + upper + lower - 4 * current
        current + SPEED * gradient
      else outBuf idx)

/-! ### The double-buffer scheduler (`animate_display`, source lines 123-170) -/

/-- Identity of the two physical grid buffers: `A` is `device_input`,
`B` is `device_output`. -/
inductive BufId
  | A
  | B
deriving DecidableEq

/-- The per-frame simulation state: the contents of the two physical
buffers `device_input` / `device_output` and the `flag_IO` toggle
(`flag = true` means `device_input` currently plays the input role). -/
structure SimState where
  device_input : Grid
  device_output : Grid
  flag : Bool

/-- One sub-step of the frame loop: pick the (input, output) buffer pair
from the toggle, stamp the heaters into the input buffer in place, run the
stencil from the (heater-stamped) input buffer into the output buffer,
then flip the toggle. -/
def subStep (heaters : Grid) (s : SimState) : SimState :=
  if s.flag then
    let inp := maintain_heaters DIM heaters s.device_input
    let p := temperature_update DIM inp s.device_output
    { device_input := p.1, device_output := p.2, flag := !s.flag }
  else
    let inp := maintain_heaters DIM heaters s.device_output
    let p := temperature_update DIM inp s.device_input
    { device_input := p.2, device_output := p.1, flag := !s.flag }

/-- Iterate `n` consecutive sub-steps of the frame loop. -/
def subStepIter (heaters : Grid) : Nat → SimState → SimState
  | 0, s => s
  | n + 1, s => subStep heaters (subStepIter heaters n s)

/-- Which physical buffer currently plays the input role. -/
def inputBufId (s : SimState) : BufId :=
  if s.flag then BufId.A else BufId.B

/-- Which physical buffer currently plays the output role. -/
def outputBufId (s : SimState) : BufId :=
  if s.flag then BufId.B else BufId.A

/-- The buffer handed to `float_to_color` after the sub-step loop: always
the physical `device_input` buffer (source line 154-155). -/
def exported_buffer (s : SimState) : Grid :=
  s.device_input

/-- The heater-stamped input buffer read by the stencil during the
sub-step taken from state `s`. -/
def stepInputGrid (heaters : Grid) (s : SimState) : Grid :=
  maintain_heaters DIM heaters
    (if s.flag then s.device_input else s.device_output)

/-- The stencil output written during the sub-step taken from state `s`:
the frame's "result so far" after that sub-step. -/
def stepOutputGrid (heaters : Grid) (s : SimState) : Grid :=
  (temperature_update DIM (stepInputGrid heaters s)
    (if s.flag then s.device_output else s.device_input)).2

/-! ### Host-side heater construction (`main`, source lines 83-114) -/

/-- One iteration of the host loop `for (int i = 0; i < DIM * DIM; i++)`:
zero cell `i`, stamp cell `i` with `MAX_TEMPERATURE` if it lies in the
central rectangle, then (re-)apply the four point overrides and the
`[400,500) × [800,900)` block, all of which are written on every
iteration of the source loop. -/
def hostHeaterIter (g : Grid) (i : Nat) : Grid :=
  let g1 := setCell g i 0
  let x := i % DIM
  let y := i / DIM
  let g2 :=
    if 300 < x ∧ x < 600 ∧ 310 < y ∧ y < 601 then
      setCell g1 i MAX_TEMPERATURE
    else g1
  let g3 := setCell g2 (100 + 100 * DIM) ((MIN_TEMPERATURE + MAX_TEMPERATURE) / 2)
  let g4 := setCell g3 (100 + 700 * DIM) MIN_TEMPERATURE
  let g5 := setCell g4 (300 + 300 * DIM) MIN_TEMPERATURE
  let g6 := setCell g5 (700 + 200 * DIM) MIN_TEMPERATURE
  (List.range' 800 100).foldl
    (fun g k =>
      (List.range' 400 100).foldl
        (fun g j => setCell g (j + k * DIM) MIN_TEMPERATURE) g) g6

/-- The host `heaters_grid` after the construction loop, starting from the
arbitrary contents `g0` of the freshly `new`-allocated array.  This is
what the first `cudaMemcpy` uploads. -/
def heaters_grid_after_loop (g0 : Grid) : Grid :=
  (List.range (DIM * DIM)).foldl hostHeaterIter g0

/-- The second host pass, `for (j = 800; j < DIM) for (i = 0; i < 200)`,
overwriting a corner block with `MAX_TEMPERATURE` before the second
upload. -/
def second_heater_pass (g : Grid) : Grid :=
  (List.range' 800 (DIM - 800)).foldl
    (fun g j =>
      (List.range 200).foldl
        (fun g i => setCell g (i + j * DIM) MAX_TEMPERATURE) g) g

/-- The heater map resident on the device after both uploads: the second
`cudaMemcpy` overwrites the first one wholesale. -/
def device_heaters_final (g0 : Grid) : Grid :=
  second_heater_pass (heaters_grid_after_loop g0)

/-! ### Spec-side definitions

These follow the words of the specification (and of the claims), to be
compared against the definitions above that were translated from the
source. -/

/-- Spec-side left neighbour: `idx - 1` unless `x = 0`, in which case the
clamp collapses to the cell itself. -/
def leftNbr (dim idx : Nat) : Nat :=
  if idx % dim = 0 then idx else idx - 1

/-- Spec-side right neighbour: `idx + 1` unless `x = dim - 1`, in which
case the clamp collapses to the cell itself. -/
def rightNbr (dim idx : Nat) : Nat :=
  if idx % dim = dim - 1 then idx else idx + 1

/-- Spec-side upper neighbour: `idx - dim` unless `y = 0`. -/
def upperNbr (dim idx : Nat) : Nat :=
  if idx / dim = 0 then idx else idx - dim

/-- Spec-side lower neighbour: `idx + dim` unless `y = dim - 1`. -/
def lowerNbr (dim idx : Nat) : Nat :=
  if idx / dim = dim - 1 then idx else idx + dim

/-- Spec rule 2 (claim C4): cells with `300 < x < 600` and `310 < y < 601`
are set to `MAX_TEMPERATURE`. -/
def heaterRegionRule (g : Grid) : Grid :=
  fun idx =>
    if 300 < idx % DIM ∧ idx % DIM < 600 ∧ 310 < idx / DIM ∧ idx / DIM < 601 then
      MAX_TEMPERATURE
    else g idx

/-- Spec rule 3 (claim C4): the four point overrides, in source order
(the midpoint first, then the three `MIN_TEMPERATURE` points). -/
def heaterPointRules (g : Grid) : Grid :=
  setCell
    (setCell
      (setCell
        (setCell g (100 + 100 * DIM) ((MIN_TEMPERATURE + MAX_TEMPERATURE) / 2))
        (100 + 700 * DIM) MIN_TEMPERATURE)
      (300 + 300 * DIM) MIN_TEMPERATURE)
    (700 + 200 * DIM) MIN_TEMPERATURE

/-- Spec rule 4 (claim C4): the block `400 ≤ x < 500`, `800 ≤ k < 900`
set to `MIN_TEMPERATURE`. -/
def heaterBlockRule (g : Grid) : Grid :=
  fun idx =>
    if 400 ≤ idx % DIM ∧ idx % DIM < 500 ∧ 800 ≤ idx / DIM ∧ idx / DIM < 900 then
      MIN_TEMPERATURE
    else g idx

/-- Spec rule 5 (claim C4): the second, overriding upload sets the block
`0 ≤ x < 200`, `800 ≤ y < DIM` to `MAX_TEMPERATURE`. -/
def heaterSecondBlockRule (g : Grid) : Grid :=
  fun idx =>
    if idx % DIM < 200 ∧ 800 ≤ idx / DIM ∧ idx / DIM < DIM then
      MAX_TEMPERATURE
    else g idx

/-- The heater map as the claims describe it: start all-zero, then apply
the rules in sequence, later rules overriding earlier ones. -/
def heaterSeqMap : Grid :=
  heaterSecondBlockRule (heaterBlockRule (heaterPointRules (heaterRegionRule (fun _ => 0))))

/-! ### Helper lemmas -/

theorem setCell_eval (g : Grid) (i : Nat) (v : ℚ) (j : Nat) :
    setCell g i v j = if j = i then v else g j := rfl

theorem maintain_heaters_foldl_eval (heaters : Grid) :
    ∀ (L : List Nat) (buf : Grid) (idx : Nat),
      (L.foldl (fun b i => maintain_heaters_worker heaters i b) buf) idx
        = if idx ∈ L ∧ heaters idx ≠ 0 then heaters idx else buf idx := by
  intro L
  induction L with
  | nil => intro buf idx; simp
  | cons a L ih =>
    intro buf idx
    rw [List.foldl_cons, ih]
    simp only [maintain_heaters_worker, ite_apply, setCell_eval, List.mem_cons]
    by_cases ha : idx = a
    · subst ha
      by_cases h0 : heaters idx = 0 <;> simp [h0]
    · by_cases h0 : heaters idx = 0 <;> by_cases hL : idx ∈ L <;> simp [h0, hL, ha]

theorem maintain_heaters_eval (dim : Nat) (heaters buf : Grid) (idx : Nat) :
    maintain_heaters dim heaters buf idx
      = if idx < dim * dim ∧ heaters idx ≠ 0 then heaters idx else buf idx := by
  rw [maintain_heaters, maintain_heaters_foldl_eval]
  simp only [List.mem_range]

/-! ### Claims about the heater-application kernel -/

/-- Claim C3: for every cell of the target buffer and every heater map,
the heater-application pass overwrites the cell with the heater value
exactly when that value is nonzero and leaves the prior value unchanged
when it is zero; and the cell's worker touches no other cell. -/
theorem claim_C3_heater_overlay (dim : Nat) (heaters buf : Grid) (idx : Nat)
    (h : idx < dim * dim) :
    (maintain_heaters dim heaters buf idx
        = if heaters idx ≠ 0 then heaters idx else buf idx)
      ∧ ∀ j, j ≠ idx → maintain_heaters_worker heaters idx buf j = buf j := by
  constructor
  · rw [maintain_heaters_eval]
    split_ifs <;> simp_all
  · intro j hj
    simp only [maintain_heaters_worker, ite_apply, setCell_eval]
    split_ifs <;> simp_all

/-- Witness for claim C3 at `dim = 1`, an all-one heater map, an all-zero
target buffer and cell 0. -/
theorem claim_C3_heater_overlay_witness :
    (0 : Nat) < 1 * 1
      ∧ ((maintain_heaters 1 (fun _ => 1) (fun _ => 0) 0
          = if (fun _ => (1 : ℚ)) 0 ≠ 0 then (fun _ => (1 : ℚ)) 0 else (fun _ => (0 : ℚ)) 0)
        ∧ ∀ j, j ≠ 0 →
            maintain_heaters_worker (fun _ => 1) 0 (fun _ => 0) j = (fun _ => (0 : ℚ)) j) :=
  ⟨by decide, claim_C3_heater_overlay 1 (fun _ => 1) (fun _ => 0) 0 (by decide)⟩

/-- Claim C8: applying the heater-application pass twice in a row to the
same buffer yields exactly the same buffer as applying it once. -/
theorem claim_C8_heater_idempotent (dim : Nat) (heaters buf : Grid) :
    maintain_heaters dim heaters (maintain_heaters dim heaters buf)
      = maintain_heaters dim heaters buf := by
  funext idx
  simp only [maintain_heaters_eval]
  split_ifs <;> rfl

/-! ### Index arithmetic for the stencil kernel -/

theorem current_idx_eq (dim idx : Nat) :
    current_idx dim (idx % dim) (idx / dim) = (idx : Int) := by
  simp only [current_idx]
  exact_mod_cast Nat.mod_add_div' idx dim

theorem current_idx_toNat (dim idx : Nat) :
    (current_idx dim (idx % dim) (idx / dim)).toNat = idx := by
  rw [current_idx_eq]
  simp

theorem left_idx_toNat (dim idx : Nat) :
    (left_idx dim (idx % dim) (idx / dim)).toNat = leftNbr dim idx := by
  simp only [left_idx, leftNbr, current_idx_eq]
  split_ifs <;> omega

theorem right_idx_toNat (dim idx : Nat) :
    (right_idx dim (idx % dim) (idx / dim)).toNat = rightNbr dim idx := by
  simp only [right_idx, rightNbr, current_idx_eq]
  split_ifs <;> omega

theorem upper_idx_toNat (dim idx : Nat) :
    (upper_idx dim (idx % dim) (idx / dim)).toNat = upperNbr dim idx := by
  simp only [upper_idx, upperNbr, current_idx_eq]
  split_ifs <;> omega

theorem lower_idx_toNat (dim idx : Nat) :
    (lower_idx dim (idx % dim) (idx / dim)).toNat = lowerNbr dim idx := by
  simp only [lower_idx, lowerNbr, current_idx_eq]
  split_ifs <;> omega

/-- Pointwise characterization of one `temperature_update` launch: inside
the grid, the output cell is the explicit Euler update read at the
boundary-adjusted neighbour indices. -/
theorem temperature_update_eval (dim : Nat) (input outBuf : Grid) (idx : Nat)
    (h : idx < dim * dim) :
    (temperature_update dim input outBuf).2 idx
      = input idx + SPEED * (input (leftNbr dim idx) + input (rightNbr dim idx)
          + input (upperNbr dim idx) + input (lowerNbr dim idx) - 4 * input idx) := by
  simp only [temperature_update, tex1Dfetch, if_pos h, current_idx_toNat,
    left_idx_toNat, right_idx_toNat, upper_idx_toNat, lower_idx_toNat]

/-! ### Claims about the stencil kernel -/

/-- Claim C1: for every cell index of the input buffer, one stencil
sub-step writes to the output buffer at the same index the value
`next_val = current_val + SPEED * gradient`, with
`gradient = left_val + right_val + upper_val + lower_val - 4*current_val`,
the five values read from the input buffer at the boundary-adjusted
neighbour indices; and the input buffer is not mutated by the pass. -/
theorem claim_C1_stencil_update (dim : Nat) (input outBuf : Grid) (idx : Nat)
    (h : idx < dim * dim) :
    ((temperature_update dim input outBuf).2 idx
        = input idx + SPEED * (input (leftNbr dim idx) + input (rightNbr dim idx)
            + input (upperNbr dim idx) + input (lowerNbr dim idx) - 4 * input idx))
      ∧ (temperature_update dim input outBuf).1 = input :=
  ⟨temperature_update_eval dim input outBuf idx h, rfl⟩

/-- Witness for claim C1 at `dim = 2`, an all-one input buffer, an
all-zero output buffer and cell 1. -/
theorem claim_C1_stencil_update_witness :
    (1 : Nat) < 2 * 2
      ∧ (((temperature_update 2 (fun _ => 1) (fun _ => 0)).2 1
          = (fun _ => (1 : ℚ)) 1 + SPEED * ((fun _ => (1 : ℚ)) (leftNbr 2 1)
              + (fun _ => (1 : ℚ)) (rightNbr 2 1) + (fun _ => (1 : ℚ)) (upperNbr 2 1)
              + (fun _ => (1 : ℚ)) (lowerNbr 2 1) - 4 * (fun _ => (1 : ℚ)) 1))
        ∧ (temperature_update 2 (fun _ => 1) (fun _ => 0)).1 = (fun _ => (1 : ℚ))) :=
  ⟨by decide, claim_C1_stencil_update 2 (fun _ => 1) (fun _ => 0) 1 (by decide)⟩

/-- Claim C2 counterexample: the claim asserts that at the top row
(`y = 0`) the upper index reflects to `idx + DIM` and at the bottom row
(`y = DIM - 1`) the lower index reflects to `idx - DIM`.  In the code
`upper_idx = current_idx - DIM` followed by `upper_idx += DIM` collapses
to `current_idx` itself, as does the bottom adjustment: at cell (5,0) the
upper index is 5, not `5 + DIM`, and at cell (5, DIM-1) the lower index
is `current_idx`, not `current_idx - DIM`. -/
theorem claim_C2_counterexample :
    upper_idx DIM 5 0 = current_idx DIM 5 0
      ∧ ¬ upper_idx DIM 5 0 = current_idx DIM 5 0 + (DIM : Int)
      ∧ lower_idx DIM 5 (DIM - 1) = current_idx DIM 5 (DIM - 1)
      ∧ ¬ lower_idx DIM 5 (DIM - 1) = current_idx DIM 5 (DIM - 1) - (DIM : Int) := by
  refine ⟨by decide, by decide, by decide, by decide⟩

/-- Claim C2 (amended): the neighbour indices are `left = idx - 1` unless
`x = 0` (then `left = idx`), `right = idx + 1` unless `x = DIM - 1` (then
`right = idx`), `upper = idx - DIM` unless `y = 0` (then `upper = idx`),
and `lower = idx + DIM` unless `y = DIM - 1` (then `lower = idx`): all
four directions clamp to the cell itself at the boundary. -/
theorem claim_C2_neighbor_indices (dim x y : Nat) :
    left_idx dim x y
        = (if x = 0 then current_idx dim x y else current_idx dim x y - 1)
      ∧ right_idx dim x y
        = (if x = dim - 1 then current_idx dim x y else current_idx dim x y + 1)
      ∧ upper_idx dim x y
        = (if y = 0 then current_idx dim x y else current_idx dim x y - (dim : Int))
      ∧ lower_idx dim x y
        = (if y = dim - 1 then current_idx dim x y else current_idx dim x y + (dim : Int)) := by
  refine ⟨?_, ?_, ?_, ?_⟩ <;>
    simp only [left_idx, right_idx, upper_idx, lower_idx] <;>
    split_ifs <;> ring

/-- Claim C5: for a 4×4 grid, no heaters, the given single-hot-corner
initial buffer, one sub-step gives cell (0,0) the value
`1 + SPEED * (1 + 0 + 1 + 0 - 4*1) = 3/5 = 0.6` (the left and upper
reads clamp to the cell itself). -/
theorem claim_C5_corner_value :
    ((temperature_update 4
        (maintain_heaters 4 (fun _ => 0) (fun idx => if idx = 0 then 1 else 0))
        (fun _ => 0)).2 0
      = 1 + SPEED * (1 + 0 + 1 + 0 - 4 * 1))
      ∧ (1 : ℚ) + SPEED * (1 + 0 + 1 + 0 - 4 * 1) = 3 / 5 := by
  constructor
  · rw [temperature_update_eval 4 _ _ 0 (by norm_num)]
    simp [maintain_heaters_eval, leftNbr, rightNbr, upperNbr, lowerNbr]
  · norm_num [SPEED]

/-- Claim C7: an interior cell whose input value equals the values of all
four of its neighbours is written back unchanged by the stencil sub-step
(a uniform field is a fixed point of the update). -/
theorem claim_C7_uniform_fixed_point (dim : Nat) (input outBuf : Grid) (x y : Nat)
    (hx0 : 0 < x) (hx1 : x < dim - 1) (hy0 : 0 < y) (hy1 : y < dim - 1)
    (hl : input (x + y * dim - 1) = input (x + y * dim))
    (hr : input (x + y * dim + 1) = input (x + y * dim))
    (hu : input (x + y * dim - dim) = input (x + y * dim))
    (hd : input (x + y * dim + dim) = input (x + y * dim)) :
    (temperature_update dim input outBuf).2 (x + y * dim) = input (x + y * dim) := by
  have hxd : x < dim := by omega
  have hyd : y + 1 ≤ dim := by omega
  have hlt : x + y * dim < dim * dim := by
    calc x + y * dim < dim + y * dim := by omega
    _ = (y + 1) * dim := by ring
    _ ≤ dim * dim := Nat.mul_le_mul_right dim hyd
  have hmod : (x + y * dim) % dim = x := by
    rw [Nat.add_mul_mod_self_right, Nat.mod_eq_of_lt hxd]
  have hdiv : (x + y * dim) / dim = y := by
    rw [Nat.add_mul_div_right _ _ (by omega : 0 < dim), Nat.div_eq_of_lt hxd]
    omega
  rw [temperature_update_eval dim input outBuf _ hlt]
  rw [leftNbr, rightNbr, upperNbr, lowerNbr, hmod, hdiv]
  rw [if_neg (by omega), if_neg (by omega), if_neg (by omega), if_neg (by omega)]
  rw [hl, hr, hu, hd]
  ring

/-- Witness for claim C7 at `dim = 4`, the constant-2 input buffer and
the interior cell (1,1). -/
theorem claim_C7_uniform_fixed_point_witness :
    (0 : Nat) < 1 ∧ (1 : Nat) < 4 - 1
      ∧ (temperature_update 4 (fun _ => 2) (fun _ => 0)).2 (1 + 1 * 4) = (fun _ => (2 : ℚ)) (1 + 1 * 4) :=
  ⟨by decide, by decide,
    claim_C7_uniform_fixed_point 4 (fun _ => 2) (fun _ => 0) 1 1
      (by decide) (by decide) (by decide) (by decide) rfl rfl rfl rfl⟩

/-- Claim C9: for every cell `(x, y)` of the `DIM × DIM` grid, every index
computed and used for a read or a write by the stencil kernel (`current`,
`left`, `right`, `upper`, `lower`) lies in `[0, DIM*DIM)`; the
heater-application kernel only accesses `current_idx`, covered by the
first conjunct. -/
theorem claim_C9_index_range (x y : Nat) (hx : x < DIM) (hy : y < DIM) :
    (0 ≤ current_idx DIM x y ∧ current_idx DIM x y < (DIM : Int) * DIM)
      ∧ (0 ≤ left_idx DIM x y ∧ left_idx DIM x y < (DIM : Int) * DIM)
      ∧ (0 ≤ right_idx DIM x y ∧ right_idx DIM x y < (DIM : Int) * DIM)
      ∧ (0 ≤ upper_idx DIM x y ∧ upper_idx DIM x y < (DIM : Int) * DIM)
      ∧ (0 ≤ lower_idx DIM x y ∧ lower_idx DIM x y < (DIM : Int) * DIM) := by
  simp only [DIM] at hx hy ⊢
  simp only [current_idx, left_idx, right_idx, upper_idx, lower_idx]
  split_ifs <;> omega

/-- Witness for claim C9 at the bottom-left boundary cell (0, DIM-1). -/
theorem claim_C9_index_range_witness :
    (0 : Nat) < DIM ∧ DIM - 1 < DIM
      ∧ (0 ≤ lower_idx DIM 0 (DIM - 1) ∧ lower_idx DIM 0 (DIM - 1) < (DIM : Int) * DIM) :=
  ⟨by decide, by decide, (claim_C9_index_range 0 (DIM - 1) (by decide) (by decide)).2.2.2.2⟩

/-! ### Claims about the double-buffer scheduler -/

theorem subStep_flag (heaters : Grid) (s : SimState) :
    (subStep heaters s).flag = !s.flag := by
  simp only [subStep]
  split_ifs <;> rfl

theorem subStepIter_succ (heaters : Grid) (n : Nat) (s : SimState) :
    subStepIter heaters (n + 1) s = subStep heaters (subStepIter heaters n s) := rfl

theorem subStepIter_flag (heaters : Grid) (n : Nat) (s : SimState) :
    (subStepIter heaters n s).flag = if n % 2 = 0 then s.flag else !s.flag := by
  induction n with
  | zero => simp [subStepIter]
  | succ n ih =>
    rw [subStepIter_succ, subStep_flag, ih]
    by_cases h : n % 2 = 0
    · rw [if_pos h, if_neg (by omega)]
    · rw [if_neg h, if_pos (by omega), Bool.not_not]

/-- Claim C6: the scheduler toggles which physical buffer is input every
sub-step, starting with buffer A (`device_input`) as input: after an even
number of sub-steps buffer A is again the input; after an odd number it is
the output (buffer B is the input). -/
theorem claim_C6_buffer_toggle (heaters : Grid) (s : SimState) (n : Nat)
    (hs : s.flag = true) :
    (n % 2 = 0 → inputBufId (subStepIter heaters n s) = BufId.A)
      ∧ (n % 2 = 1 → inputBufId (subStepIter heaters n s) = BufId.B
          ∧ outputBufId (subStepIter heaters n s) = BufId.A) := by
  constructor <;> intro hn <;>
    simp [inputBufId, outputBufId, subStepIter_flag, hn, hs]

/-- Witness for claim C6 at `n = 2` and `n = 3` from the all-zero start
state. -/
theorem claim_C6_buffer_toggle_witness :
    (⟨fun _ => 0, fun _ => 0, true⟩ : SimState).flag = true
      ∧ inputBufId (subStepIter (fun _ => 0) 2 ⟨fun _ => 0, fun _ => 0, true⟩) = BufId.A
      ∧ inputBufId (subStepIter (fun _ => 0) 3 ⟨fun _ => 0, fun _ => 0, true⟩) = BufId.B :=
  ⟨rfl,
    (claim_C6_buffer_toggle (fun _ => 0) ⟨fun _ => 0, fun _ => 0, true⟩ 2 rfl).1 rfl,
    ((claim_C6_buffer_toggle (fun _ => 0) ⟨fun _ => 0, fun _ => 0, true⟩ 3 rfl).2 rfl).1⟩

/-- Claim C10: the per-frame export always reads the physical
`device_input` buffer, and this coincides with the frame's final result
because `TIME_STEPS_PER_FRAME = 50` is even: the last sub-step of the
loop runs with the toggle false and writes its stencil output into
`device_input`, and the toggle is back to its initial value for the next
frame. -/
theorem claim_C10_export_is_final (heaters : Grid) (s : SimState)
    (hs : s.flag = true) :
    exported_buffer (subStepIter heaters TIME_STEPS_PER_FRAME s)
        = stepOutputGrid heaters (subStepIter heaters (TIME_STEPS_PER_FRAME - 1) s)
      ∧ (subStepIter heaters (TIME_STEPS_PER_FRAME - 1) s).flag = false
      ∧ (subStepIter heaters TIME_STEPS_PER_FRAME s).flag = true := by
  have h49 : (subStepIter heaters (TIME_STEPS_PER_FRAME - 1) s).flag = false := by
    rw [subStepIter_flag]
    norm_num [TIME_STEPS_PER_FRAME, hs]
  have h50 : subStepIter heaters TIME_STEPS_PER_FRAME s
      = subStep heaters (subStepIter heaters (TIME_STEPS_PER_FRAME - 1) s) := rfl
  refine ⟨?_, h49, ?_⟩
  · rw [h50]
    simp [subStep, h49, exported_buffer, stepOutputGrid, stepInputGrid]
  · rw [h50, subStep_flag, h49]
    rfl

/-- Witness for claim C10 from the all-zero start state. -/
theorem claim_C10_export_is_final_witness :
    (⟨fun _ => 0, fun _ => 0, true⟩ : SimState).flag = true
      ∧ exported_buffer (subStepIter (fun _ => 0) TIME_STEPS_PER_FRAME
            ⟨fun _ => 0, fun _ => 0, true⟩)
          = stepOutputGrid (fun _ => 0) (subStepIter (fun _ => 0)
              (TIME_STEPS_PER_FRAME - 1) ⟨fun _ => 0, fun _ => 0, true⟩)
      ∧ (subStepIter (fun _ => 0) TIME_STEPS_PER_FRAME
            ⟨fun _ => 0, fun _ => 0, true⟩).flag = true :=
  ⟨rfl,
    (claim_C10_export_is_final (fun _ => 0) ⟨fun _ => 0, fun _ => 0, true⟩ rfl).1,
    (claim_C10_export_is_final (fun _ => 0) ⟨fun _ => 0, fun _ => 0, true⟩ rfl).2.2⟩

/-! ### Pointwise characterization of the heater-map construction -/

theorem foldl_setCell_eval (v : ℚ) (f : Nat → Nat) :
    ∀ (L : List Nat) (g : Grid) (idx : Nat),
      (L.foldl (fun g k => setCell g (f k) v) g) idx
        = if idx ∈ L.map f then v else g idx := by
  intro L
  induction L with
  | nil => intro g idx; simp
  | cons a L ih =>
    intro g idx
    rw [List.foldl_cons, ih]
    simp only [List.map_cons, List.mem_cons]
    by_cases hm : idx ∈ L.map f <;> by_cases ha : idx = f a <;>
      simp [hm, ha, setCell_eval]

theorem foldl_setCell_nested_eval (v : ℚ) (f : Nat → Nat → Nat) :
    ∀ (Ks Js : List Nat) (g : Grid) (idx : Nat),
      (Ks.foldl (fun g k => Js.foldl (fun g j => setCell g (f k j) v) g) g) idx
        = if ∃ k ∈ Ks, idx ∈ Js.map (f k) then v else g idx := by
  intro Ks Js
  induction Ks with
  | nil => intro g idx; simp
  | cons a Ks ih =>
    intro g idx
    rw [List.foldl_cons, ih, foldl_setCell_eval]
    by_cases hm : ∃ k ∈ Ks, idx ∈ Js.map (f k) <;>
      by_cases ha : idx ∈ Js.map (f a) <;>
      simp only [List.mem_map] at hm ha <;>
      simp [hm, ha]

/-- A doubly-indexed family of cell writes `g[j + k*dim] = v` for
`j ∈ [a, a+n)`, `k ∈ [b, b+m)` covers exactly the cells whose column
`idx % dim` lies in `[a, a+n)` and whose row `idx / dim` lies in
`[b, b+m)`, provided the column range stays inside one row. -/
theorem exists_block_index_iff (a n b m dim : Nat) (hdim : 0 < dim)
    (han : a + n ≤ dim) :
    ∀ idx, (∃ k ∈ List.range' b m, idx ∈ (List.range' a n).map (fun j => j + k * dim))
      ↔ (a ≤ idx % dim ∧ idx % dim < a + n ∧ b ≤ idx / dim ∧ idx / dim < b + m) := by
  intro idx
  constructor
  · rintro ⟨k, hk, hj⟩
    rw [List.mem_map] at hj
    obtain ⟨j, hjm, rfl⟩ := hj
    rw [List.mem_range'_1] at hk hjm
    have hjd : j < dim := by omega
    rw [Nat.add_mul_mod_self_right, Nat.mod_eq_of_lt hjd,
      Nat.add_mul_div_right _ _ hdim, Nat.div_eq_of_lt hjd]
    omega
  · rintro ⟨h1, h2, h3, h4⟩
    refine ⟨idx / dim, ?_, ?_⟩
    · rw [List.mem_range'_1]
      omega
    · rw [List.mem_map]
      refine ⟨idx % dim, ?_, Nat.mod_add_div' idx dim⟩
      rw [List.mem_range'_1]
      omega

/-- What one iteration of the host construction loop leaves in cell
`idx`: the fixed writes (the four points and the `[400,500) × [800,900)`
block) are re-applied on every iteration and therefore always win over
the zero/rectangle write to cell `i`. -/
theorem hostHeaterIter_eval (g : Grid) (i idx : Nat) :
    hostHeaterIter g i idx
      = if 400 ≤ idx % DIM ∧ idx % DIM < 500 ∧ 800 ≤ idx / DIM ∧ idx / DIM < 900 then
          MIN_TEMPERATURE
        else if idx = 700 + 200 * DIM then MIN_TEMPERATURE
        else if idx = 300 + 300 * DIM then MIN_TEMPERATURE
        else if idx = 100 + 700 * DIM then MIN_TEMPERATURE
        else if idx = 100 + 100 * DIM then (MIN_TEMPERATURE + MAX_TEMPERATURE) / 2
        else if idx = i then
          (if 300 < i % DIM ∧ i % DIM < 600 ∧ 310 < i / DIM ∧ i / DIM < 601 then
            MAX_TEMPERATURE
          else 0)
        else g idx := by
  have hDIM : DIM = 1024 := rfl
  simp only [hostHeaterIter, hDIM, foldl_setCell_nested_eval, setCell_eval, ite_apply,
    exists_block_index_iff 400 100 800 100 1024 (by norm_num) (by norm_num)]
  split_ifs <;> rfl

/-- The host `heaters_grid` after the first `n` iterations of the
construction loop, pointwise. -/
theorem heaters_loop_eval (g0 : Grid) :
    ∀ (n : Nat) (idx : Nat),
      ((List.range n).foldl hostHeaterIter g0) idx
        = if n = 0 then g0 idx
          else if 400 ≤ idx % DIM ∧ idx % DIM < 500 ∧ 800 ≤ idx / DIM ∧ idx / DIM < 900 then
            MIN_TEMPERATURE
          else if idx = 700 + 200 * DIM then MIN_TEMPERATURE
          else if idx = 300 + 300 * DIM then MIN_TEMPERATURE
          else if idx = 100 + 700 * DIM then MIN_TEMPERATURE
          else if idx = 100 + 100 * DIM then (MIN_TEMPERATURE + MAX_TEMPERATURE) / 2
          else if idx < n then
            (if 300 < idx % DIM ∧ idx % DIM < 600 ∧ 310 < idx / DIM ∧ idx / DIM < 601 then
              MAX_TEMPERATURE
            else 0)
          else g0 idx := by
  intro n
  induction n with
  | zero => intro idx; simp
  | succ n ih =>
    intro idx
    rw [List.range_succ, List.foldl_append, List.foldl_cons, List.foldl_nil,
      hostHeaterIter_eval, ih]
    have hDIM : DIM = 1024 := rfl
    simp only [hDIM]
    split_ifs <;> first | rfl | contradiction | omega

/-- The second host pass, pointwise: it overwrites exactly the corner
block `0 ≤ x < 200`, `800 ≤ y < DIM`. -/
theorem second_heater_pass_eval (g : Grid) (idx : Nat) :
    second_heater_pass g idx
      = if idx % DIM < 200 ∧ 800 ≤ idx / DIM ∧ idx / DIM < DIM then MAX_TEMPERATURE
        else g idx := by
  have hDIM : DIM = 1024 := rfl
  simp only [second_heater_pass, hDIM, List.range_eq_range', foldl_setCell_nested_eval,
    exists_block_index_iff 0 200 800 (1024 - 800) 1024 (by norm_num) (by norm_num)]
  split_ifs <;> first | rfl | contradiction | omega

/-- Claim C4: the heater map uploaded to the device equals the sequential
application of the construction rules, later rules overriding earlier
ones at overlapping cells: start all-zero; the central rectangle to
`MAX_TEMPERATURE`; the four point overrides; the `[400,500) × [800,900)`
block to `MIN_TEMPERATURE`; and, via the second overriding upload, the
corner block `0 ≤ x < 200`, `800 ≤ y < DIM` to `MAX_TEMPERATURE`. -/
theorem claim_C4_heater_map (g0 : Grid) (idx : Nat) (h : idx < DIM * DIM) :
    device_heaters_final g0 idx = heaterSeqMap idx := by
  have hDIM : DIM = 1024 := rfl
  rw [device_heaters_final, second_heater_pass_eval, heaters_grid_after_loop,
    heaters_loop_eval g0 (DIM * DIM) idx]
  simp only [heaterSeqMap, heaterSecondBlockRule, heaterBlockRule, heaterPointRules,
    heaterRegionRule, setCell_eval, hDIM]
  simp only [hDIM] at h
  split_ifs <;> first | rfl | contradiction

/-- Witness for claim C4 at cell 0 with an arbitrarily-filled fresh
host array. -/
theorem claim_C4_heater_map_witness :
    (0 : Nat) < DIM * DIM ∧ device_heaters_final (fun _ => 37) 0 = heaterSeqMap 0 :=
  ⟨by decide, claim_C4_heater_map (fun _ => 37) 0 (by decide)⟩

end HeatSim
